import Mathlib

/-!
Verification of the IoT-XRay consumer pipeline (message validation,
acknowledgment, signal store, query projection).

The development shallowly embeds the TypeScript sources of
`iot-xray-consumer`:
  - `consumer/consumer.service.ts` : `_cleanData` (Decoder/Validator) and
    `handleXrayData` (Acknowledgment Controller);
  - `signal/signal.service.ts` : `createSignal` (bulk insert), `create`,
    `update`, `findWithFilters`;
  - `signal/signal.controller.ts` : `findAll` (Query Projector);
  - `consumer/types.ts` and `signal/type.ts` : the DTO validation rules.

Modelling conventions:
  - JavaScript values are modelled by the inductive `JValue`; JS numbers are
    modelled by `Int` (every concrete input used below is integral, and no
    statement depends on fractional or NaN arithmetic beyond the explicit
    NaN encoding `Option.none` produced by implicit conversion).
  - A thrown JS exception is modelled by `Except.error`; the `try/catch` of
    `handleXrayData` and of `createSignal` is explicit in the control flow.
  - `uuidv4()` is modelled by a fresh-name supply: the store state carries a
    counter and each generated uuid is the current counter value.
  - Database effects are modelled by explicit state passing: the Mongo
    collection is a `List Signal`; `insertMany` failure is an explicit
    boolean oracle `insertFails` (the catch branch of `createSignal`).
-/

namespace IoTXRay

/-- A JavaScript runtime value (numbers restricted to integers). -/
inductive JValue where
  | jundefined : JValue
  | jnull : JValue
  | jbool : Bool → JValue
  | jnum : Int → JValue
  | jstr : String → JValue
  | jarr : List JValue → JValue
  | jobj : List (String × JValue) → JValue

/-- JS truthiness: `undefined`, `null`, `false`, `0` and `""` are falsy. -/
def truthy : JValue → Bool
  | .jundefined => false
  | .jnull => false
  | .jbool b => b
  | .jnum n => n != 0
  | .jstr s => s != ""
  | .jarr _ => true
  | .jobj _ => true

/-- `typeof v === "object"`; note `typeof null === "object"` in JS. -/
def typeofIsObject : JValue → Bool
  | .jnull => true
  | .jarr _ => true
  | .jobj _ => true
  | _ => false

/-- `Array.isArray`. -/
def isArray : JValue → Bool
  | .jarr _ => true
  | _ => false

/-- Property access `v[k]`; a missing property reads as `undefined`.
Access on `null`/`undefined` never happens in the embedded code because it
is always guarded by a truthiness check first. -/
def getProp : JValue → String → JValue
  | .jobj fields, k => ((fields.find? (fun f => f.1 == k)).map Prod.snd).getD .jundefined
  | _, _ => .jundefined

/-- The elements of an array value (only used under an `isArray` guard). -/
def arrElems : JValue → List JValue
  | .jarr l => l
  | _ => []

/-- The `for (const k in v)` own-key/value pairs: object fields, or the
index/element pairs of an array (indices enumerate as strings in JS). -/
def entries : JValue → List (String × JValue)
  | .jobj fields => fields
  | .jarr l => (l.enum).map (fun p => (toString p.1, p.2))
  | _ => []

/-- Character `i` of a string during array destructuring of a string
(strings are iterable char-wise in JS); past the end gives `undefined`. -/
def charAt (s : String) (i : Nat) : JValue :=
  match s.toList.get? i with
  | some c => .jstr (String.mk [c])
  | none => .jundefined

/-- Positional destructuring component `i` of an iterable value; a
non-iterable value (anything but an array or a string) throws `TypeError`. -/
def destructAt : JValue → Nat → Except Unit JValue
  | .jarr l, i => .ok (l.getD i .jundefined)
  | .jstr s, i => .ok (charAt s i)
  | _, _ => .error ()

/-- The raw result of destructuring one `data` element as
`[time, [x, y, speed]]` (before DTO conversion). -/
structure RawPoint where
  time : JValue
  x : JValue
  y : JValue
  speed : JValue

/-- Destructure one element of `device.data` as `[time, [x, y, speed]]`,
as done by the arrow function inside `_cleanData`; throws when the element
or its second component is not iterable. -/
def destructureElem (v : JValue) : Except Unit RawPoint := do
  let t ← destructAt v 0
  let inner ← destructAt v 1
  let x ← destructAt inner 0
  let y ← destructAt inner 1
  let s ← destructAt inner 2
  .ok ⟨t, x, y, s⟩

/-- Implicit conversion to `number` performed by `plainToInstance` with
`enableImplicitConversion: true` (the JS `Number()` coercion); `none`
encodes NaN. Only integral strings are recognised, matching every value
this development evaluates the decoder on. -/
def toNumber : JValue → Option Int
  | .jnum n => some n
  | .jnull => some 0
  | .jbool b => some (if b then 1 else 0)
  | .jundefined => none
  | .jstr s =>
      if s = "" then some 0
      else if s.toList.all Char.isDigit then some (s.toNat!)
      else none
  | .jarr [] => some 0
  | .jarr [v] => toNumber v
  | .jarr _ => none
  | .jobj _ => none

/-- A point of `PointInfoDto` after implicit conversion: each declared
`number` field is either a number or NaN (`none`). -/
structure ConvPoint where
  time : Option Int
  x : Option Int
  y : Option Int
  speed : Option Int

/-- A `DeviceDto` instance after implicit conversion. -/
structure ConvDevice where
  data : List ConvPoint
  time : Option Int

/-- `class-validator` checks of one converted point: `@IsInt time`,
`@IsLatitude x` (a number in [-90, 90]), `@IsLongitude y` (a number in
[-180, 180]), `@IsNumber speed`; NaN fails each of them. -/
def pointValid (p : ConvPoint) : Bool :=
  p.time.isSome &&
  (match p.x with | some v => decide (-90 ≤ v ∧ v ≤ 90) | none => false) &&
  (match p.y with | some v => decide (-180 ≤ v ∧ v ≤ 180) | none => false) &&
  p.speed.isSome

/-- `class-validator` checks of `DeviceDto`: `data` is `@IsArray`
(true by construction) with `@ArrayMinSize(1)` and nested point checks;
`time` is `@IsNumber`. -/
def deviceValid (d : ConvDevice) : Bool :=
  decide (1 ≤ d.data.length) && d.data.all pointValid && d.time.isSome

/-- A validated point (`PointInfoDto` whose checks all passed). -/
structure Point where
  time : Int
  x : Int
  y : Int
  speed : Int
deriving DecidableEq

/-- A validated `DeviceDto` (`DeviceBatch` of the specification). -/
structure DeviceBatch where
  data : List Point
  time : Int
deriving DecidableEq

/-- Convert a destructured raw point into a `PointInfoDto` instance
(implicit conversion of each declared `number` field). -/
def convertPoint (r : RawPoint) : ConvPoint :=
  ⟨toNumber r.time, toNumber r.x, toNumber r.y, toNumber r.speed⟩

/-- Extract the validated fields (only evaluated after `deviceValid`). -/
def extractDevice (d : ConvDevice) : DeviceBatch :=
  ⟨d.data.map (fun p => ⟨p.time.getD 0, p.x.getD 0, p.y.getD 0, p.speed.getD 0⟩),
   d.time.getD 0⟩

/-- One iteration of the `_cleanData` loop body for a single device value:
`.ok none` means the device entry is skipped, `.ok (some b)` means the
entry validated to batch `b`, `.error` models a thrown exception escaping
the loop (a `data` element that fails to destructure). -/
def decodeDevice (device : JValue) : Except Unit (Option DeviceBatch) :=
  if !truthy device || !isArray (getProp device "data") then
    .ok none
  else do
    let raws ← (arrElems (getProp device "data")).mapM destructureElem
    let conv : ConvDevice := ⟨raws.map convertPoint, toNumber (getProp device "time")⟩
    if deviceValid conv then .ok (some (extractDevice conv)) else .ok none

/-- The `for (const deviceId in msg)` loop of `_cleanData`, accumulating
the validated entries in iteration order; a thrown exception propagates. -/
def cleanEntries : List (String × JValue) → List (String × DeviceBatch) →
    Except Unit (List (String × DeviceBatch))
  | [], acc => .ok acc
  | (k, v) :: rest, acc =>
      match decodeDevice v with
      | .error e => .error e
      | .ok none => cleanEntries rest acc
      | .ok (some b) => cleanEntries rest (acc ++ [(k, b)])

/-- `ConsumerService._cleanData`: `null` for a falsy or non-object
top-level value, otherwise the mapping of the device entries that
validated; `.error` models a thrown exception. -/
def _cleanData (msg : JValue) : Except Unit (Option (List (String × DeviceBatch))) :=
  if !truthy msg || !typeofIsObject msg then
    .ok none
  else
    (cleanEntries (entries msg) []).map some

/-! ## Signal store (`signal/signal.service.ts`) -/

/-- A persisted Signal document. `uuid` is a natural drawn from the
fresh-name supply that models `uuidv4()`; `dataLength` and `dataVolume`
are `Int` because Mongo stores whatever number the caller supplied on the
single-record paths. -/
structure Signal where
  uuid : Nat
  deviceId : String
  time : Int
  dataLength : Int
  dataVolume : Int
  data : List Point
deriving DecidableEq

/-- The store state: the fresh-uuid counter and the Mongo collection. -/
structure Store where
  nextUuid : Nat
  signals : List Signal
deriving DecidableEq

/-- The empty store. -/
def emptyStore : Store := ⟨0, []⟩

/-- `JSON.stringify` of one `PointInfoDto` (integral fields). -/
def jsonOfPoint (p : Point) : String :=
  "\x7b\"time\":" ++ toString p.time ++ ",\"coords\":\x7b\"x\":" ++ toString p.x ++
    ",\"y\":" ++ toString p.y ++ ",\"speed\":" ++ toString p.speed ++ "\x7d\x7d"

/-- `JSON.stringify(deviceData.data)`; `Buffer.from(...).length` is the
string length since every character here is ASCII. -/
def jsonOfPoints (l : List Point) : String :=
  "[" ++ String.intercalate "," (l.map jsonOfPoint) ++ "]"

/-- The Signal built for one device inside the `createSignal` loop:
`dataLength` and `dataVolume` are derived from the batch points. -/
def mkSignal (uuid : Nat) (deviceId : String) (b : DeviceBatch) : Signal :=
  ⟨uuid, deviceId, b.time, (b.data.length : Int), ((jsonOfPoints b.data).length : Int), b.data⟩

/-- The `signalsToSave` array accumulated by the `createSignal` loop; one
fresh uuid is generated per device, in iteration order. -/
def buildSignals : List (String × DeviceBatch) → Nat → List Signal
  | [], _ => []
  | (d, b) :: rest, base => mkSignal base d b :: buildSignals rest (base + 1)

/-- `SignalService.createSignal`: builds one document per device, then
`insertMany` when the array is non-empty. The surrounding `try/catch`
swallows any insert failure and returns `[]`, so this function never
throws; `insertFails` is the oracle for `insertMany` raising. -/
def createSignal (message : List (String × DeviceBatch)) (insertFails : Bool)
    (st : Store) : List Signal × Store :=
  let sigs := buildSignals message st.nextUuid
  if 0 < sigs.length then
    if insertFails then
      ([], { st with nextUuid := st.nextUuid + message.length })
    else
      (sigs, ⟨st.nextUuid + message.length, st.signals ++ sigs⟩)
  else
    ([], st)

/-- `CreateSignalDto`: every persisted field, including `dataLength` and
`dataVolume`, is supplied by the caller. -/
structure CreateSignalDto where
  uuid : Nat
  deviceId : String
  time : Int
  dataLength : Int
  dataVolume : Int
  data : List Point
deriving DecidableEq

/-- `SignalService.create`: persists the DTO fields verbatim. -/
def create (dto : CreateSignalDto) (db : List Signal) : Signal × List Signal :=
  let s : Signal := ⟨dto.uuid, dto.deviceId, dto.time, dto.dataLength, dto.dataVolume, dto.data⟩
  (s, db ++ [s])

/-- `UpdateSignalDto`: all fields optional, none derived. -/
structure UpdateSignalDto where
  time : Option Int
  dataLength : Option Int
  dataVolume : Option Int
  data : Option (List Point)
deriving DecidableEq

/-- Apply the `$set` semantics of `findOneAndUpdate` to one document. -/
def applyUpdate (u : UpdateSignalDto) (s : Signal) : Signal :=
  { s with
    time := u.time.getD s.time
    dataLength := u.dataLength.getD s.dataLength
    dataVolume := u.dataVolume.getD s.dataVolume
    data := u.data.getD s.data }

/-- `SignalService.update`: `findOneAndUpdate({uuid: id}, dto)` updates the
first document whose `uuid` matches. -/
def update (id : Nat) (u : UpdateSignalDto) : List Signal → List Signal
  | [] => []
  | s :: rest => if s.uuid == id then applyUpdate u s :: rest else s :: update id u rest

/-- `FilterSignalDto` (uuid strings modelled by naturals, the empty string
by `0`). -/
structure FilterSignalDto where
  deviceId : Option String
  uuid : Option Nat
  time : Option Int
  dataLength : Option Int
  dataVolume : Option Int
deriving DecidableEq

/-- The filter with no field present. -/
def emptyFilter : FilterSignalDto := ⟨none, none, none, none, none⟩

/-- The Mongo query built by `findWithFilters`: each `if (filters.f)`
guard adds a conjunct only when the field value is truthy (so a present
zero or empty string adds nothing). -/
def matchesFilter (f : FilterSignalDto) (s : Signal) : Bool :=
  (match f.deviceId with
   | some d => if d != "" then s.deviceId == d else true
   | none => true) &&
  (match f.uuid with
   | some u => if u != 0 then s.uuid == u else true
   | none => true) &&
  (match f.time with
   | some t => if t != 0 then t ≤ s.time else true
   | none => true) &&
  (match f.dataLength with
   | some n => if n != 0 then s.dataLength == n else true
   | none => true) &&
  (match f.dataVolume with
   | some n => if n != 0 then s.dataVolume == n else true
   | none => true)

/-- `PaginationDto` as received by the service (fields optional). -/
structure PaginationDto where
  page : Option Int
  limit : Option Int
deriving DecidableEq

/-- The pagination metadata block of the response. -/
structure PaginationInfo where
  totalCount : Nat
  totalPages : Int
  currentPage : Int
  limit : Int
deriving DecidableEq

/-- `PaginatedSignalsResponse`. -/
structure PaginatedSignalsResponse where
  data : List Signal
  paginationInfo : PaginationInfo
deriving DecidableEq

/-- `.sort(\x7b time: -1 \x7d)`: Mongo sorts by `time` descending before
`skip`/`limit` are applied (builder order is irrelevant); modelled by a
stable insertion sort under the relation `b.time ≤ a.time`. -/
def sortByTimeDesc (l : List Signal) : List Signal :=
  l.insertionSort (fun a b => b.time ≤ a.time)

/-- `SignalService.findWithFilters`. `??` substitutes only for a missing
field; `Math.ceil(totalCount / limit)` is the rational ceiling (faithful
whenever `limit` is non-zero); `skip`/`limit` are modelled by `drop`/`take`
(the driver rejects negative arguments, and every statement proved below
constrains them to the non-negative range). -/
def findWithFilters (filters : FilterSignalDto) (pagination : PaginationDto)
    (db : List Signal) : PaginatedSignalsResponse :=
  let page := pagination.page.getD 1
  let limit := pagination.limit.getD 10
  let skip := (page - 1) * limit
  let matched := db.filter (matchesFilter filters)
  let totalCount := matched.length
  let totalPages : Int := ⌈(totalCount : ℚ) / (limit : ℚ)⌉
  let data := ((sortByTimeDesc matched).drop skip.toNat).take limit.toNat
  ⟨data, ⟨totalCount, totalPages, page, limit⟩⟩

/-! ## Query projector (`signal/signal.controller.ts`) -/

/-- JS `v || d` on an optional numeric query parameter: the default is
substituted for a missing value and for `0` (falsy), while any non-zero
value — negatives included — passes through. -/
def jsOrInt (v : Option Int) (d : Int) : Int :=
  match v with
  | none => d
  | some x => if x == 0 then d else x

/-- `Object.keys(filterDto).length` on the transformed DTO. -/
def filterKeyCount (f : FilterSignalDto) : Nat :=
  (if f.deviceId.isSome then 1 else 0) + (if f.uuid.isSome then 1 else 0) +
  (if f.time.isSome then 1 else 0) + (if f.dataLength.isSome then 1 else 0) +
  (if f.dataVolume.isSome then 1 else 0)

/-- `Object.keys(paginationDto).length` on the transformed DTO. -/
def pagKeyCount (p : PaginationDto) : Nat :=
  (if p.page.isSome then 1 else 0) + (if p.limit.isSome then 1 else 0)

/-- `SignalController.findAll`: normalizes `page`/`limit` with `|| 1` and
`|| 10`, then delegates to `findWithFilters` (with the literal `{}` filter
when both DTOs are empty). -/
def findAll (filterDto : FilterSignalDto) (paginationDto : PaginationDto)
    (db : List Signal) : PaginatedSignalsResponse :=
  let page := jsOrInt paginationDto.page 1
  let limit := jsOrInt paginationDto.limit 10
  if filterKeyCount filterDto ≠ 0 || pagKeyCount paginationDto ≠ 0 then
    findWithFilters filterDto ⟨some page, some limit⟩ db
  else
    findWithFilters emptyFilter ⟨some page, some limit⟩ db

/-! ## Acknowledgment controller (`consumer/consumer.service.ts`) -/

/-- The only value `handleXrayData` ever returns is a `Nack`: the
`@golevelup/nestjs-rabbitmq` reject primitive, with or without requeue.
The library would interpret any non-`Nack` return as an ack, but no code
path of `handleXrayData` produces one. -/
structure Nack where
  requeue : Bool
deriving DecidableEq

/-- The observable outcome of one delivery: the returned `Nack`, the store
state afterwards, and whether `SignalService.createSignal` was invoked. -/
structure HandleResult where
  ack : Nack
  store : Store
  storeInvoked : Bool
deriving DecidableEq

/-- `ConsumerService.handleXrayData`: decode, branch on `null` and on the
empty mapping (both `Nack(false)`), persist, return `Nack(false)`; the
`catch` returns `Nack(true)`. `createSignal` never throws (its internal
catch), so the `catch` here only fires for decode exceptions. -/
def handleXrayData (msg : JValue) (insertFails : Bool) (st : Store) : HandleResult :=
  match _cleanData msg with
  | .error _ => ⟨⟨true⟩, st, false⟩
  | .ok none => ⟨⟨false⟩, st, false⟩
  | .ok (some cleanedData) =>
      if cleanedData.length = 0 then ⟨⟨false⟩, st, false⟩
      else
        let r := createSignal cleanedData insertFails st
        ⟨⟨false⟩, r.2, true⟩

/-! ## Concrete wire payloads used to evaluate the pipeline -/

/-- A wire device entry `\x7b data: [[123, [1, 2, 3]]], time: 456 \x7d`,
the shape of the unit-test fixture `mockValidMsg`. -/
def sampleDevice : JValue :=
  .jobj [("data", .jarr [.jarr [.jnum 123, .jarr [.jnum 1, .jnum 2, .jnum 3]]]),
         ("time", .jnum 456)]

/-- The batch `sampleDevice` decodes to. -/
def sampleBatch : DeviceBatch := ⟨[⟨123, 1, 2, 3⟩], 456⟩

/-- A valid one-device message. -/
def sampleMsg : JValue := .jobj [("device-1", sampleDevice)]

/-- A device entry whose `data` array holds the element `42`, which does
not destructure as `[time, [x, y, speed]]` (a `TypeError` is thrown). -/
def samplePoisonDevice : JValue :=
  .jobj [("data", .jarr [.jnum 42]), ("time", .jnum 6)]

/-- A message with one valid device entry and one entry whose points
element fails to destructure. -/
def samplePoisonedMsg : JValue := .jobj [("d1", sampleDevice), ("d2", samplePoisonDevice)]

/-- A device entry whose `data` is not an array. -/
def sampleNonArrayDevice : JValue := .jobj [("data", .jstr "not-an-array")]

/-- A top-level array whose single element is a valid device entry. -/
def sampleArrayMsg : JValue := .jarr [sampleDevice]

/-- A `CreateSignalDto` whose caller-supplied `dataLength` (99) disagrees
with its one-point `data`. -/
def sampleBadDto : CreateSignalDto := ⟨7, "d", 0, 99, 0, [⟨1, 1, 2, 3⟩]⟩

/-- A persisted signal with one point (`dataLength = 1`). -/
def sampleStoredSignal : Signal := ⟨1, "d", 10, 1, 50, [⟨1, 1, 2, 3⟩]⟩

/-- The filter `\x7b dataLength: 0 \x7d` (field present, value zero). -/
def zeroLengthFilter : FilterSignalDto := ⟨none, none, none, some 0, none⟩

/-- A small store content used to evaluate the query path. -/
def queryDb : List Signal :=
  [⟨1, "d1", 5, 1, 10, []⟩, ⟨2, "d1", 1, 1, 10, []⟩,
   ⟨3, "d2", 9, 1, 10, []⟩, ⟨4, "d1", 7, 1, 10, []⟩]

/-- The filter `\x7b deviceId: "d1", time: 3 \x7d`. -/
def queryFilter : FilterSignalDto := ⟨some "d1", none, some 3, none, none⟩

/-- The pagination `\x7b page: 1, limit: 2 \x7d`. -/
def queryPagination : PaginationDto := ⟨some 1, some 2⟩

/-! ## Specification-side predicate for the query filter

`filterSpec` is written from the specification sentence "filter fields
(deviceId equal, uuid equal, time greater-or-equal, pointCount equal,
byteVolume equal) are AND-combined; any absent field is not applied",
amended by the truthiness caveat: a present zero / empty-string value is
treated as absent. It is compared with the source-derived
`matchesFilter`. -/

/-- The AND-combination of the applied filter fields. -/
def filterSpec (f : FilterSignalDto) (s : Signal) : Prop :=
  (∀ d, f.deviceId = some d → d ≠ "" → s.deviceId = d) ∧
  (∀ u, f.uuid = some u → u ≠ 0 → s.uuid = u) ∧
  (∀ t, f.time = some t → t ≠ 0 → t ≤ s.time) ∧
  (∀ n, f.dataLength = some n → n ≠ 0 → s.dataLength = n) ∧
  (∀ n, f.dataVolume = some n → n ≠ 0 → s.dataVolume = n)

/-- The sort relation of `.sort(\x7b time: -1 \x7d)` is total. -/
instance : IsTotal Signal (fun a b => b.time ≤ a.time) :=
  ⟨fun a b => (le_total b.time a.time)⟩

/-- The sort relation of `.sort(\x7b time: -1 \x7d)` is transitive. -/
instance : IsTrans Signal (fun a b => b.time ≤ a.time) :=
  ⟨fun _ _ _ hab hbc => le_trans hbc hab⟩

/-! ## Helper lemmas -/

theorem buildSignals_length (m : List (String × DeviceBatch)) (base : Nat) :
    (buildSignals m base).length = m.length := by
  induction m generalizing base with
  | nil => rfl
  | cons kb rest ih => cases kb; simp [buildSignals, ih]

theorem buildSignals_map_deviceId (m : List (String × DeviceBatch)) (base : Nat) :
    (buildSignals m base).map Signal.deviceId = m.map Prod.fst := by
  induction m generalizing base with
  | nil => rfl
  | cons kb rest ih => cases kb; simp [buildSignals, mkSignal, ih]

theorem buildSignals_map_data (m : List (String × DeviceBatch)) (base : Nat) :
    (buildSignals m base).map Signal.data = m.map (fun kb => kb.2.data) := by
  induction m generalizing base with
  | nil => rfl
  | cons kb rest ih => cases kb; simp [buildSignals, mkSignal, ih]

theorem buildSignals_derived (m : List (String × DeviceBatch)) (base : Nat) :
    ∀ s ∈ buildSignals m base,
      s.dataLength = (s.data.length : Int) ∧
      s.dataVolume = ((jsonOfPoints s.data).length : Int) := by
  induction m generalizing base with
  | nil => intro s hs; cases hs
  | cons kb rest ih =>
      cases kb with
      | mk d b =>
        intro s hs
        rcases List.mem_cons.mp hs with h | h
        · subst h; exact ⟨rfl, rfl⟩
        · exact ih (base + 1) s h

theorem buildSignals_uuid_bound (m : List (String × DeviceBatch)) (base : Nat) :
    ∀ s ∈ buildSignals m base, base ≤ s.uuid ∧ s.uuid < base + m.length := by
  induction m generalizing base with
  | nil => intro s hs; cases hs
  | cons kb rest ih =>
      cases kb with
      | mk d b =>
        intro s hs
        rcases List.mem_cons.mp hs with h | h
        · subst h; simp [mkSignal]
        · have := ih (base + 1) s h
          simp only [List.length_cons]
          omega

theorem buildSignals_uuid_nodup (m : List (String × DeviceBatch)) (base : Nat) :
    ((buildSignals m base).map Signal.uuid).Nodup := by
  induction m generalizing base with
  | nil => simp [buildSignals]
  | cons kb rest ih =>
      cases kb with
      | mk d b =>
        simp only [buildSignals, List.map_cons, List.nodup_cons]
        refine ⟨fun hmem => ?_, ih (base + 1)⟩
        obtain ⟨s, hs, heq⟩ := List.mem_map.mp hmem
        have hb := (buildSignals_uuid_bound rest (base + 1) s hs).1
        simp [mkSignal] at heq
        omega

theorem decodeDevice_skip (v : JValue)
    (hv : (!truthy v || !isArray (getProp v "data")) = true) :
    decodeDevice v = .ok none := by
  simp [decodeDevice, hv]

theorem cleanEntries_skip (post : List (String × JValue)) (k : String) (v : JValue)
    (hv : decodeDevice v = .ok none) :
    ∀ (pre : List (String × JValue)) (acc : List (String × DeviceBatch)),
      cleanEntries (pre ++ (k, v) :: post) acc = cleanEntries (pre ++ post) acc := by
  intro pre
  induction pre with
  | nil => intro acc; simp [cleanEntries, hv]
  | cons p pre ih =>
      intro acc
      cases p with
      | mk k2 v2 =>
        cases h : decodeDevice v2 with
        | error e => simp [cleanEntries, h]
        | ok o => cases o <;> simp [cleanEntries, h, ih]

theorem guard_str_iff (o : Option String) (x : String) :
    ((match o with
      | some d => if d != "" then x == d else true
      | none => true) = true) ↔ (∀ d, o = some d → d ≠ "" → x = d) := by
  cases o with
  | none => simp
  | some d =>
      by_cases hd : d = ""
      · subst hd; simp
      · simp [hd]

theorem guard_nat_iff (o : Option Nat) (x : Nat) :
    ((match o with
      | some u => if u != 0 then x == u else true
      | none => true) = true) ↔ (∀ u, o = some u → u ≠ 0 → x = u) := by
  cases o with
  | none => simp
  | some u =>
      by_cases hu : u = 0
      · subst hu; simp
      · simp [hu]

theorem guard_int_le_iff (o : Option Int) (x : Int) :
    ((match o with
      | some t => if t != 0 then ((t ≤ x : Prop) : Bool) else true
      | none => true) = true) ↔ (∀ t, o = some t → t ≠ 0 → t ≤ x) := by
  cases o with
  | none => simp
  | some t =>
      by_cases ht : t = 0
      · subst ht; simp
      · simp [ht]

theorem guard_int_eq_iff (o : Option Int) (x : Int) :
    ((match o with
      | some n => if n != 0 then x == n else true
      | none => true) = true) ↔ (∀ n, o = some n → n ≠ 0 → x = n) := by
  cases o with
  | none => simp
  | some n =>
      by_cases hn : n = 0
      · subst hn; simp
      · simp [hn]

theorem matchesFilter_iff (f : FilterSignalDto) (s : Signal) :
    matchesFilter f s = true ↔ filterSpec f s := by
  unfold matchesFilter filterSpec
  rw [Bool.and_eq_true, Bool.and_eq_true, Bool.and_eq_true, Bool.and_eq_true,
    guard_str_iff, guard_nat_iff, guard_int_le_iff, guard_int_eq_iff, guard_int_eq_iff]
  tauto

theorem filterKeyCount_eq_zero {f : FilterSignalDto} (h : filterKeyCount f = 0) :
    f = emptyFilter := by
  obtain ⟨fd, fu, ft, fl, fv⟩ := f
  unfold filterKeyCount at h
  cases fd <;> cases fu <;> cases ft <;> cases fl <;> cases fv <;>
    simp_all [emptyFilter]

theorem ceil_mul_bounds (c : Nat) (l : Int) (hl : 1 ≤ l) :
    (c : Int) ≤ ⌈(c : ℚ) / (l : ℚ)⌉ * l ∧ ⌈(c : ℚ) / (l : ℚ)⌉ * l < (c : Int) + l := by
  have hl0 : (0 : ℚ) < (l : ℚ) := by exact_mod_cast lt_of_lt_of_le Int.zero_lt_one hl
  have hlne : (l : ℚ) ≠ 0 := ne_of_gt hl0
  constructor
  · have h1 : ((c : ℚ) / (l : ℚ)) ≤ (⌈(c : ℚ) / (l : ℚ)⌉ : ℚ) := Int.le_ceil _
    have h2 : (c : ℚ) ≤ (⌈(c : ℚ) / (l : ℚ)⌉ : ℚ) * (l : ℚ) := by
      have := mul_le_mul_of_nonneg_right h1 (le_of_lt hl0)
      rwa [div_mul_cancel₀ _ hlne] at this
    exact_mod_cast h2
  · have h1 : (⌈(c : ℚ) / (l : ℚ)⌉ : ℚ) < (c : ℚ) / (l : ℚ) + 1 := Int.ceil_lt_add_one _
    have h2 : (⌈(c : ℚ) / (l : ℚ)⌉ : ℚ) * (l : ℚ) < ((c : ℚ) / (l : ℚ) + 1) * (l : ℚ) :=
      mul_lt_mul_of_pos_right h1 hl0
    have h3 : ((c : ℚ) / (l : ℚ) + 1) * (l : ℚ) = (c : ℚ) + (l : ℚ) := by
      rw [add_mul, div_mul_cancel₀ _ hlne, one_mul]
    rw [h3] at h2
    exact_mod_cast h2

/-! ## Claim theorems -/

/-- C1: the claim says that after a successful decode and bulk insert the
controller issues the transport accept (ack) primitive, distinct from the
reject-without-requeue primitive used for decode failures. The code
instead returns `new Nack(false)` on the success path — evaluated here on
a valid one-device message with a succeeding insert, the outcome is the
very same `Nack(false)` that a decode failure (top-level `null`) produces,
even though the batch was persisted. -/
theorem C1_success_path_returns_dead_letter_primitive :
    handleXrayData sampleMsg false emptyStore =
      ⟨⟨false⟩, ⟨1, [⟨0, "device-1", 456, 1, 47, [⟨123, 1, 2, 3⟩]⟩]⟩, true⟩ ∧
    handleXrayData JValue.jnull false emptyStore = ⟨⟨false⟩, emptyStore, false⟩ ∧
    (handleXrayData sampleMsg false emptyStore).ack =
      (handleXrayData JValue.jnull false emptyStore).ack :=
  ⟨rfl, rfl, rfl⟩

/-- C2: the claim says any exception during persistence yields
reject-with-requeue (`Nack(true)`). Evaluated on a valid message with a
failing `insertMany`, the internal catch of `createSignal` swallows the
exception, so the controller takes its success path and returns
`Nack(false)` — the message is not requeued. -/
theorem C2_persistence_failure_not_requeued :
    handleXrayData sampleMsg true emptyStore = ⟨⟨false⟩, ⟨1, []⟩, true⟩ ∧
    (handleXrayData sampleMsg true emptyStore).ack ≠ ⟨true⟩ :=
  ⟨rfl, by decide⟩

/-- C3: the claim says bulk insert reports failure distinguishably from
"nothing to insert". In the code a failing `insertMany` on a non-empty
mapping and an empty input mapping both return `[]` — the two results are
identical. -/
theorem C3_insert_failure_indistinguishable_from_empty :
    (createSignal [("d1", sampleBatch)] true emptyStore).1 = [] ∧
    (createSignal [] false emptyStore).1 = [] ∧
    (createSignal [("d1", sampleBatch)] true emptyStore).1 =
      (createSignal [] false emptyStore).1 :=
  ⟨rfl, rfl, rfl⟩

/-- C4 counterexample: the claim says a malformed points element
invalidates only its own device entry and the remaining valid entries are
still persisted. In `samplePoisonedMsg` the entry `d1` is valid
(`decodeDevice` accepts it) while `d2` holds the non-destructurable
element `42`; the thrown `TypeError` escapes `_cleanData`, the whole
message is requeued (`Nack(true)`), the store is never invoked and `d1`
is not persisted. -/
theorem C4_counterexample_nondestructurable_element_poisons_message :
    decodeDevice sampleDevice = .ok (some sampleBatch) ∧
    _cleanData samplePoisonedMsg = .error () ∧
    handleXrayData samplePoisonedMsg false emptyStore = ⟨⟨true⟩, emptyStore, false⟩ :=
  ⟨rfl, rfl, rfl⟩

/-- C5 counterexample: the claim says a top-level array always
dead-letters without invoking the store. `sampleArrayMsg` is an array
whose element is a valid device entry: the decoder traverses its indices,
returns the non-null mapping keyed by `"0"`, and the store is invoked and
persists a signal with `deviceId = "0"`. -/
theorem C5_counterexample_array_reaches_store :
    _cleanData sampleArrayMsg = .ok (some [("0", sampleBatch)]) ∧
    (handleXrayData sampleArrayMsg false emptyStore).storeInvoked = true ∧
    (handleXrayData sampleArrayMsg false emptyStore).store.signals.map Signal.deviceId
      = ["0"] :=
  ⟨rfl, rfl, rfl⟩

/-- C7 counterexample: the claim says every present filter field is
applied. The filter `\x7b dataLength: 0 \x7d` is present, and no stored
signal has `dataLength = 0`, yet the query returns the stored signal and
`totalCount = 1`: the zero-valued field was silently treated as absent by
the `if (filters.dataLength)` truthiness guard. -/
theorem C7_counterexample_zero_filter_ignored :
    (findWithFilters zeroLengthFilter ⟨some 1, some 10⟩ [sampleStoredSignal]).paginationInfo.totalCount = 1 ∧
    (findWithFilters zeroLengthFilter ⟨some 1, some 10⟩ [sampleStoredSignal]).data
      = [sampleStoredSignal] ∧
    ([sampleStoredSignal].filter (fun s => s.dataLength == 0)).length = 0 :=
  ⟨rfl, rfl, rfl⟩

/-- C8 counterexample: the claim says the projector substitutes the
default for every non-positive supplied `page`, including negatives. With
`page = -5` the `||` guard sees a truthy value and passes `-5` through to
the store unchanged. -/
theorem C8_counterexample_negative_page_passthrough :
    (findAll emptyFilter ⟨some (-5), none⟩ []).paginationInfo.currentPage = -5 ∧
    ((-5 : Int) = 1 → False) :=
  ⟨rfl, by decide⟩

/-- C9 counterexample: the claim says the `pointCount = len(points)`
invariant holds after every store operation including `Create`. `create`
persists the caller-supplied `dataLength` verbatim: with `sampleBadDto`
the stored signal has `dataLength = 99` but a single-point `data`. -/
theorem C9_counterexample_create_unchecked :
    ((create sampleBadDto []).2.map (fun s => (s.dataLength, (s.data.length : Int))))
      = [(99, 1)] ∧
    ((99 : Int) = 1 → False) :=
  ⟨rfl, by decide⟩

/-- C10: a structurally valid top-level mapping in which zero device
entries survive validation (the decoder returns the empty mapping) is
rejected without requeue (`Nack(false)`) and the bulk insert is never
invoked — the store state is untouched. -/
theorem C10_zero_survivors_dead_letter (msg : JValue) (fails : Bool) (st : Store)
    (h : _cleanData msg = .ok (some [])) :
    handleXrayData msg fails st = ⟨⟨false⟩, st, false⟩ := by
  simp [handleXrayData, h]

/-- C10 witness: the empty mapping `\x7b\x7d` decodes to the empty device
mapping and is dead-lettered without invoking the store. -/
theorem C10_zero_survivors_dead_letter_witness :
    _cleanData (JValue.jobj []) = .ok (some []) ∧
    handleXrayData (JValue.jobj []) false emptyStore = ⟨⟨false⟩, emptyStore, false⟩ :=
  ⟨rfl, C10_zero_survivors_dead_letter (JValue.jobj []) false emptyStore rfl⟩

/-- C4 (amended): a device entry that is falsy or whose `data` is not an
array is dropped and invalidates only itself: the message behaves — same
acknowledgment, same store state, same store invocation — exactly as the
message with that entry removed, so the remaining valid entries are still
persisted. (As the counterexample shows, this locality does not extend to
a points element that fails to destructure: that throws and requeues the
whole message.) -/
theorem C4_nonarray_data_device_dropped_locally
    (pre post : List (String × JValue)) (k : String) (v : JValue)
    (fails : Bool) (st : Store)
    (hv : (!truthy v || !isArray (getProp v "data")) = true) :
    handleXrayData (JValue.jobj (pre ++ (k, v) :: post)) fails st =
      handleXrayData (JValue.jobj (pre ++ post)) fails st := by
  have hskip : decodeDevice v = .ok none := decodeDevice_skip v hv
  have hclean :
      _cleanData (JValue.jobj (pre ++ (k, v) :: post)) =
        _cleanData (JValue.jobj (pre ++ post)) := by
    unfold _cleanData
    simp only [truthy, typeofIsObject, entries, Bool.not_true, Bool.or_self, if_neg,
      Bool.false_or, cond_false]
    rw [cleanEntries_skip post k v hskip pre []]
  unfold handleXrayData
  rw [hclean]

/-- C4 witness: dropping the `data: "not-an-array"` entry `d2` from a
two-device message leaves the handling of the remaining valid entry `d1`
unchanged, and that entry is persisted. -/
theorem C4_nonarray_data_device_dropped_locally_witness :
    (!truthy sampleNonArrayDevice ||
      !isArray (getProp sampleNonArrayDevice "data")) = true ∧
    handleXrayData (JValue.jobj ([("d1", sampleDevice)] ++ ("d2", sampleNonArrayDevice) :: []))
        false emptyStore =
      handleXrayData (JValue.jobj ([("d1", sampleDevice)] ++ [])) false emptyStore ∧
    (handleXrayData (JValue.jobj [("d1", sampleDevice), ("d2", sampleNonArrayDevice)])
        false emptyStore).store.signals.map Signal.deviceId = ["d1"] :=
  ⟨rfl,
   C4_nonarray_data_device_dropped_locally [("d1", sampleDevice)] [] "d2"
     sampleNonArrayDevice false emptyStore rfl,
   rfl⟩

/-- C5 (amended): a delivered message whose top-level value is `null` or a
string makes the decoder return `null` and is dead-lettered
(`Nack(false)`) without the signal store ever being invoked. (A top-level
array, by contrast, is traversed like a keyed mapping over its indices and
can reach the store — see the counterexample.) -/
theorem C5_null_or_string_dead_letters (msg : JValue) (fails : Bool) (st : Store)
    (h : msg = JValue.jnull ∨ ∃ s, msg = JValue.jstr s) :
    _cleanData msg = .ok none ∧
    handleXrayData msg fails st = ⟨⟨false⟩, st, false⟩ := by
  have hc : _cleanData msg = .ok none := by
    rcases h with h | ⟨s, h⟩ <;> subst h
    · rfl
    · simp [_cleanData, typeofIsObject]
  exact ⟨hc, by simp [handleXrayData, hc]⟩

/-- C5 witness: the string message `"hello"` decodes to `null` and is
dead-lettered without invoking the store. -/
theorem C5_null_or_string_dead_letters_witness :
    (JValue.jstr "hello" = JValue.jnull ∨ ∃ s, JValue.jstr "hello" = JValue.jstr s) ∧
    (_cleanData (JValue.jstr "hello") = .ok none ∧
      handleXrayData (JValue.jstr "hello") false emptyStore = ⟨⟨false⟩, emptyStore, false⟩) :=
  ⟨Or.inr ⟨"hello", rfl⟩,
   C5_null_or_string_dead_letters (JValue.jstr "hello") false emptyStore
     (Or.inr ⟨"hello", rfl⟩)⟩

/-- C6: for a valid mapping of devices each with at least one point, a
successful bulk insert yields exactly one signal per input device, in
order; each signal's `dataLength` equals the length of its points and its
`dataVolume` is the serialized size of those points; the generated uuids
are pairwise distinct and distinct from the uuid of every previously
created signal (the freshness invariant is also preserved). -/
theorem C6_bulk_insert_spec (m : List (String × DeviceBatch)) (st : Store)
    (hM : ∀ kb ∈ m, 1 ≤ kb.2.data.length)
    (hfresh : ∀ s ∈ st.signals, s.uuid < st.nextUuid) :
    (createSignal m false st).1.length = m.length ∧
    (createSignal m false st).1.map Signal.deviceId = m.map Prod.fst ∧
    (createSignal m false st).1.map Signal.data = m.map (fun kb => kb.2.data) ∧
    (∀ s ∈ (createSignal m false st).1,
      s.dataLength = (s.data.length : Int) ∧
      s.dataVolume = ((jsonOfPoints s.data).length : Int)) ∧
    ((createSignal m false st).1.map Signal.uuid).Nodup ∧
    (∀ old ∈ st.signals, ∀ nw ∈ (createSignal m false st).1, old.uuid ≠ nw.uuid) ∧
    (∀ s ∈ (createSignal m false st).2.signals,
      s.uuid < (createSignal m false st).2.nextUuid) := by
  have hb := buildSignals_length m st.nextUuid
  by_cases h : 0 < (buildSignals m st.nextUuid).length
  · have hres : createSignal m false st =
        (buildSignals m st.nextUuid,
         ⟨st.nextUuid + m.length, st.signals ++ buildSignals m st.nextUuid⟩) := by
      unfold createSignal
      simp [h]
    rw [hres]
    refine ⟨hb, buildSignals_map_deviceId m st.nextUuid,
      buildSignals_map_data m st.nextUuid, buildSignals_derived m st.nextUuid,
      buildSignals_uuid_nodup m st.nextUuid, ?_, ?_⟩
    · intro old ho nw hn
      have h1 := hfresh old ho
      have h2 := (buildSignals_uuid_bound m st.nextUuid nw hn).1
      omega
    · intro s hs
      show s.uuid < st.nextUuid + m.length
      rcases List.mem_append.mp hs with hsold | hsnew
      · have := hfresh s hsold
        omega
      · exact (buildSignals_uuid_bound m st.nextUuid s hsnew).2
  · have hm0 : m = [] := by
      have : (buildSignals m st.nextUuid).length = 0 := by omega
      rw [hb] at this
      exact List.eq_nil_of_length_eq_zero this
    subst hm0
    have hres : createSignal [] false st = ([], st) := rfl
    rw [hres]
    exact ⟨rfl, rfl, rfl, fun s hs => absurd hs (List.not_mem_nil s),
      List.nodup_nil, fun old ho nw hn => absurd hn (List.not_mem_nil nw), hfresh⟩

/-- C6 witness: inserting a one-device mapping into a store that already
holds one signal (uuid 0, below the counter) yields one signal with
derived fields and a fresh uuid. -/
theorem C6_bulk_insert_spec_witness :
    (∀ kb ∈ [("d1", sampleBatch)], 1 ≤ kb.2.data.length) ∧
    (∀ s ∈ [mkSignal 0 "d0" sampleBatch], s.uuid < 1) ∧
    ((createSignal [("d1", sampleBatch)] false
        ⟨1, [mkSignal 0 "d0" sampleBatch]⟩).1.map Signal.deviceId = ["d1"] ∧
      ((createSignal [("d1", sampleBatch)] false
        ⟨1, [mkSignal 0 "d0" sampleBatch]⟩).1.map Signal.uuid).Nodup) :=
  ⟨by decide, by decide,
   ⟨(C6_bulk_insert_spec [("d1", sampleBatch)] ⟨1, [mkSignal 0 "d0" sampleBatch]⟩
      (by decide) (by decide)).2.1,
    (C6_bulk_insert_spec [("d1", sampleBatch)] ⟨1, [mkSignal 0 "d0" sampleBatch]⟩
      (by decide) (by decide)).2.2.2.2.1⟩⟩

/-- C8 (amended): the query projector substitutes the documented defaults
(`page = 1`, `limit = 10`) when the supplied value is missing or zero,
passes any non-zero supplied value through unchanged — negative values
included — and delegates to the store with the filter fields untouched
(the empty-DTO branch delegates identically). -/
theorem C8_projector_normalization (f : FilterSignalDto) (pag : PaginationDto)
    (db : List Signal) :
    findAll f pag db =
      findWithFilters f ⟨some (jsOrInt pag.page 1), some (jsOrInt pag.limit 10)⟩ db ∧
    (pag.page = none ∨ pag.page = some 0 → jsOrInt pag.page 1 = 1) ∧
    (∀ p : Int, pag.page = some p → p ≠ 0 → jsOrInt pag.page 1 = p) ∧
    (pag.limit = none ∨ pag.limit = some 0 → jsOrInt pag.limit 10 = 10) ∧
    (∀ l : Int, pag.limit = some l → l ≠ 0 → jsOrInt pag.limit 10 = l) := by
  refine ⟨?_, ?_, ?_, ?_, ?_⟩
  · unfold findAll
    split
    · rfl
    · rename_i hcond
      simp only [Bool.or_eq_true, decide_eq_true_eq, not_or] at hcond
      have hf : filterKeyCount f = 0 := by omega
      rw [filterKeyCount_eq_zero hf]
  · rintro (h | h) <;> simp [jsOrInt, h]
  · intro p hp hne
    simp [jsOrInt, hp, hne]
  · rintro (h | h) <;> simp [jsOrInt, h]
  · intro l hl hne
    simp [jsOrInt, hl, hne]

/-- C8 witness: with `page = -5` (truthy) and `limit = 0` (falsy) the
projector delegates with `page = -5` passed through and `limit` defaulted
to 10. -/
theorem C8_projector_normalization_witness :
    (findAll emptyFilter ⟨some (-5), some 0⟩ [] =
      findWithFilters emptyFilter
        ⟨some (jsOrInt (some (-5)) 1), some (jsOrInt (some 0) 10)⟩ []) ∧
    jsOrInt (some (-5) : Option Int) 1 = -5 ∧
    jsOrInt (some 0 : Option Int) 10 = 10 :=
  ⟨(C8_projector_normalization emptyFilter ⟨some (-5), some 0⟩ []).1,
   (C8_projector_normalization emptyFilter ⟨some (-5), some 0⟩ []).2.2.1 (-5) rfl
     (by decide),
   (C8_projector_normalization emptyFilter ⟨some (-5), some 0⟩ []).2.2.2.1
     (Or.inr rfl)⟩

/-- C9 (amended): on the bulk path every inserted signal has
`dataLength` equal to the length of its persisted points and `dataVolume`
derived from those points (never caller-supplied), and a successful bulk
insert appends exactly the returned signals to the store. On the
single-record paths (`create`, `update`) these fields are persisted
verbatim from the caller — see the counterexample. -/
theorem C9_bulk_path_derives_fields (m : List (String × DeviceBatch)) (fails : Bool)
    (st : Store) :
    (∀ s ∈ (createSignal m fails st).1,
      s.dataLength = (s.data.length : Int) ∧
      s.dataVolume = ((jsonOfPoints s.data).length : Int)) ∧
    (createSignal m false st).2.signals = st.signals ++ (createSignal m false st).1 := by
  constructor
  · intro s hs
    cases fails with
    | true =>
        have hnil : (createSignal m true st).1 = [] := by
          unfold createSignal
          by_cases h : 0 < (buildSignals m st.nextUuid).length <;> simp [h]
        rw [hnil] at hs
        exact absurd hs (List.not_mem_nil s)
    | false =>
        have hmem : s ∈ buildSignals m st.nextUuid := by
          by_cases h : 0 < (buildSignals m st.nextUuid).length
          · have heq : (createSignal m false st).1 = buildSignals m st.nextUuid := by
              unfold createSignal
              simp [h]
            rwa [heq] at hs
          · have heq : (createSignal m false st).1 = [] := by
              unfold createSignal
              simp [h]
            rw [heq] at hs
            exact absurd hs (List.not_mem_nil s)
        exact buildSignals_derived m st.nextUuid s hmem
  · unfold createSignal
    by_cases h : 0 < (buildSignals m st.nextUuid).length
    · simp [h]
    · simp [h]

/-- C9 witness: the signal inserted for `sampleBatch` on the bulk path has
`dataLength = 1` (its one point) and the serialized `dataVolume`. -/
theorem C9_bulk_path_derives_fields_witness :
    mkSignal 0 "d1" sampleBatch ∈ (createSignal [("d1", sampleBatch)] false emptyStore).1 ∧
    ((mkSignal 0 "d1" sampleBatch).dataLength
        = ((mkSignal 0 "d1" sampleBatch).data.length : Int) ∧
      (mkSignal 0 "d1" sampleBatch).dataVolume
        = ((jsonOfPoints (mkSignal 0 "d1" sampleBatch).data).length : Int)) :=
  ⟨by decide,
   (C9_bulk_path_derives_fields [("d1", sampleBatch)] false emptyStore).1
     (mkSignal 0 "d1" sampleBatch) (by decide)⟩

/-- C7 (amended): the query applies exactly the present-and-truthy filter
fields AND-combined (a present zero or empty-string value is treated as
absent — see the counterexample); the returned page is ordered by time
descending, contains only matching stored signals, holds at most `limit`
records and starts at offset `(page - 1) * limit` of the sorted matches;
`totalCount` counts all matches, `totalPages` is the ceiling of
`totalCount / limit` (characterised by the two multiplicative bounds),
and `currentPage`/`limit` echo the effective pagination, with defaults
`page = 1`, `limit = 10` substituted for missing fields. -/
theorem C7_query_spec (f : FilterSignalDto) (pag : PaginationDto) (db : List Signal)
    (hp : 1 ≤ pag.page.getD 1) (hl : 1 ≤ pag.limit.getD 10) :
    (∀ s, matchesFilter f s = true ↔ filterSpec f s) ∧
    (findWithFilters f pag db).paginationInfo.totalCount
      = (db.filter (matchesFilter f)).length ∧
    List.Sorted (fun a b : Signal => b.time ≤ a.time) (findWithFilters f pag db).data ∧
    (∀ s ∈ (findWithFilters f pag db).data, s ∈ db ∧ filterSpec f s) ∧
    (findWithFilters f pag db).data.length ≤ (pag.limit.getD 10).toNat ∧
    (findWithFilters f pag db).data
      = ((sortByTimeDesc (db.filter (matchesFilter f))).drop
          (((pag.page.getD 1 - 1) * pag.limit.getD 10).toNat)).take
          (pag.limit.getD 10).toNat ∧
    ((db.filter (matchesFilter f)).length : Int)
      ≤ (findWithFilters f pag db).paginationInfo.totalPages * pag.limit.getD 10 ∧
    (findWithFilters f pag db).paginationInfo.totalPages * pag.limit.getD 10
      < ((db.filter (matchesFilter f)).length : Int) + pag.limit.getD 10 ∧
    (findWithFilters f pag db).paginationInfo.currentPage = pag.page.getD 1 ∧
    (findWithFilters f pag db).paginationInfo.limit = pag.limit.getD 10 := by
  have hdata : (findWithFilters f pag db).data
      = ((sortByTimeDesc (db.filter (matchesFilter f))).drop
          (((pag.page.getD 1 - 1) * pag.limit.getD 10).toNat)).take
          (pag.limit.getD 10).toNat := rfl
  have hsorted : List.Sorted (fun a b : Signal => b.time ≤ a.time)
      (sortByTimeDesc (db.filter (matchesFilter f))) :=
    List.sorted_insertionSort _ _
  have hsub : List.Sublist (findWithFilters f pag db).data
      (sortByTimeDesc (db.filter (matchesFilter f))) := by
    rw [hdata]
    exact (List.take_sublist _ _).trans (List.drop_sublist _ _)
  have hceil := ceil_mul_bounds (db.filter (matchesFilter f)).length
    (pag.limit.getD 10) hl
  refine ⟨fun s => matchesFilter_iff f s, rfl, ?_, ?_, ?_, hdata, ?_, ?_, rfl, rfl⟩
  · exact hsorted.sublist hsub
  · intro s hs
    have hmem : s ∈ db.filter (matchesFilter f) :=
      (List.perm_insertionSort _ _).subset (hsub.subset hs)
    have hspl := List.mem_filter.mp hmem
    exact ⟨hspl.1, (matchesFilter_iff f s).mp hspl.2⟩
  · rw [hdata]
    exact List.length_take_le _ _
  · exact hceil.1
  · exact hceil.2

/-- C7 witness: the filter `deviceId = "d1", time ≥ 3` on a four-signal
store with `page = 1, limit = 2` yields a sorted page of the two
matches. -/
theorem C7_query_spec_witness :
    (1 ≤ queryPagination.page.getD 1) ∧ (1 ≤ queryPagination.limit.getD 10) ∧
    List.Sorted (fun a b : Signal => b.time ≤ a.time)
      (findWithFilters queryFilter queryPagination queryDb).data ∧
    (findWithFilters queryFilter queryPagination queryDb).paginationInfo.totalCount
      = (queryDb.filter (matchesFilter queryFilter)).length :=
  ⟨by decide, by decide,
   (C7_query_spec queryFilter queryPagination queryDb (by decide) (by decide)).2.2.1,
   (C7_query_spec queryFilter queryPagination queryDb (by decide) (by decide)).2.1⟩

end IoTXRay
